import Mathlib

/-!
# Verification of `mlflow/openai/api_request_parallel_processor.py`

A shallow embedding of the parallel API request processor: the `StatusTracker`
counters, the `APIRequest.call_api` outcome classification, the capacity
(token-bucket) refill and admission logic of `process_api_requests`, and the
final result reassembly.  Python integers are unbounded, so counters are
embedded as `Int`; wall-clock times and the (float-valued) capacity budgets are
embedded as `ℚ`.
-/

namespace APIParallel

/-- The errors the processor stores in `status_tracker.error`.  The original
exception objects are abstracted to their classification, which is all the
control flow ever inspects. -/
inductive ApiFailure where
  /-- `openai.error.Timeout` -/
  | timeoutError
  /-- `openai.error.APIError` -/
  | apiError
  /-- `openai.error.APIConnectionError` -/
  | apiConnectionError
  /-- `openai.error.ServiceUnavailableError` -/
  | serviceUnavailableError
  /-- `openai.error.InvalidRequestError`; the flag records whether the error
  carries a content-filter inner error (both branches of the handler perform the
  same tracker updates and differ only in logging). -/
  | invalidRequestError (contentFilter : Bool)
  /-- any other exception (the bare `except Exception` clause) -/
  | otherException
  deriving Repr, DecidableEq

/-- A value held in `status_tracker.error`. -/
inductive TrackedError where
  /-- `MlflowException("Request failed after retrying for 10 minutes.")` -/
  | retryTimeout
  /-- `MlflowException("Request size exceeded max tokens.")` -/
  | requestSizeExceeded
  /-- the original exception stored by `status_tracker.error = e` -/
  | apiException (e : ApiFailure)
  deriving Repr, DecidableEq

/-- `StatusTracker` (api_request_parallel_processor.py, lines 41-77): shared
counters describing the run's progress.  All fields start at zero / `None`. -/
structure StatusTracker where
  num_tasks_started : Int := 0
  num_tasks_in_progress : Int := 0
  num_tasks_succeeded : Int := 0
  num_tasks_failed : Int := 0
  num_rate_limit_errors : Int := 0
  num_api_errors : Int := 0
  num_other_errors : Int := 0
  time_of_last_rate_limit_error : ℚ := 0
  error : Option TrackedError := none
  deriving Repr, DecidableEq

/-- The freshly initialized tracker (`StatusTracker()`). -/
def StatusTracker.init : StatusTracker := {}

/-- `StatusTracker.start_task`: increments `num_tasks_started` and
`num_tasks_in_progress` together (lines 58-61). -/
def StatusTracker.start_task (st : StatusTracker) : StatusTracker :=
  { st with
    num_tasks_started := st.num_tasks_started + 1
    num_tasks_in_progress := st.num_tasks_in_progress + 1 }

/-- `StatusTracker.complete_task(success=...)`: decrements
`num_tasks_in_progress` and increments exactly one of `num_tasks_succeeded` /
`num_tasks_failed` (lines 63-69). -/
def StatusTracker.complete_task (st : StatusTracker) (success : Bool) : StatusTracker :=
  if success then
    { st with
      num_tasks_in_progress := st.num_tasks_in_progress - 1
      num_tasks_succeeded := st.num_tasks_succeeded + 1 }
  else
    { st with
      num_tasks_in_progress := st.num_tasks_in_progress - 1
      num_tasks_failed := st.num_tasks_failed + 1 }

/-- `StatusTracker.increment_num_rate_limit_errors` (lines 71-73). -/
def StatusTracker.increment_num_rate_limit_errors (st : StatusTracker) : StatusTracker :=
  { st with num_rate_limit_errors := st.num_rate_limit_errors + 1 }

/-- `StatusTracker.increment_num_api_errors` (lines 75-77). -/
def StatusTracker.increment_num_api_errors (st : StatusTracker) : StatusTracker :=
  { st with num_api_errors := st.num_api_errors + 1 }

/-- One mutation of the shared tracker, as performed by the dispatch loop and
the workers: the four locked methods plus the two direct field assignments that
`call_api` performs on a rate-limit error. -/
inductive TrackerOp where
  | startTask
  | completeTask (success : Bool)
  | incrRateLimitErrors
  | incrApiErrors
  | setTimeOfLastRateLimitError (t : ℚ)
  | setError (e : TrackedError)
  deriving Repr, DecidableEq

/-- Apply one tracker mutation. -/
def applyTrackerOp (st : StatusTracker) : TrackerOp → StatusTracker
  | .startTask => st.start_task
  | .completeTask success => st.complete_task success
  | .incrRateLimitErrors => st.increment_num_rate_limit_errors
  | .incrApiErrors => st.increment_num_api_errors
  | .setTimeOfLastRateLimitError t => { st with time_of_last_rate_limit_error := t }
  | .setError e => { st with error := some e }

/-- A whole history of tracker mutations applied to the fresh tracker. -/
def runTrackerOps (ops : List TrackerOp) : StatusTracker :=
  ops.foldl applyTrackerOp StatusTracker.init

/-- The accounting identity maintained by the tracker. -/
def StatusTracker.balanced (st : StatusTracker) : Prop :=
  st.num_tasks_started
    = st.num_tasks_in_progress + st.num_tasks_succeeded + st.num_tasks_failed

/-- `APIRequest` (lines 80-95): the per-request record.  The opaque `task` /
`request_json` payload and the shared `results` reference are not stored here
(the results list is threaded explicitly through `call_api`); the fields below
are the ones the control flow reads or writes. -/
structure APIRequest where
  index : Nat
  token_consumption : Int
  attempts_left : Int
  start_time : ℚ
  last_log_time : ℚ
  deriving Repr, DecidableEq

/-- The outcome of the underlying `self.task.create(...)` network call, as
classified by the `except` clauses of `APIRequest.call_api` (lines 97-158).
`α` is the type of a successful response. -/
inductive CallOutcome (α : Type) where
  /-- the call returned a response -/
  | success (resp : α)
  /-- `openai.error.RateLimitError` -/
  | rateLimitError
  /-- any other exception, classified as in `ApiFailure` -/
  | failure (e : ApiFailure)
  deriving Repr, DecidableEq

/-- The retryable ("Other retryable errors") exception group of lines 124-130:
`Timeout`, `APIError`, `APIConnectionError`, `ServiceUnavailableError`. -/
def ApiFailure.retryable : ApiFailure → Bool
  | .timeoutError | .apiError | .apiConnectionError | .serviceUnavailableError => true
  | .invalidRequestError _ | .otherException => false

/-- What one worker execution of `APIRequest.call_api` leaves behind: the
updated tracker, retry queue and results list. -/
structure CallResult (α : Type) where
  tracker : StatusTracker
  retry_queue : List APIRequest
  results : List (Nat × α)
  deriving Repr, DecidableEq

/-- `APIRequest.call_api` (lines 97-158), as a function of the call's outcome
and the current wall-clock time `current_time` (the value `time.time()` returns
inside the rate-limit handler).  `retry_queue.put_nowait` is appending to the
FIFO; `results.append` is appending to the shared results list. -/
def call_api (req : APIRequest) (outcome : CallOutcome α) (current_time : ℚ)
    (st : StatusTracker) (rq : List APIRequest) (res : List (Nat × α)) :
    CallResult α :=
  match outcome with
  | .success resp =>
    -- lines 103-106
    ⟨st.complete_task true, rq, res ++ [(req.index, resp)]⟩
  | .rateLimitError =>
    -- lines 107-123
    let st := { st with time_of_last_rate_limit_error := current_time }
    let st := st.increment_num_rate_limit_errors
    if current_time - req.start_time < 600 then
      -- check time since first request, fail at 10 minutes
      let req :=
        if current_time - req.last_log_time > 60 then
          { req with last_log_time := current_time }
        else req
      ⟨st, rq ++ [req], res⟩
    else
      ⟨{ st.complete_task false with error := some .retryTimeout }, rq, res⟩
  | .failure e =>
    if e.retryable then
      -- lines 124-137
      let st := st.increment_num_api_errors
      if req.attempts_left > 0 then
        ⟨st, rq ++ [req], res⟩
      else
        ⟨{ st.complete_task false with error := some (.apiException e) }, rq, res⟩
    else
      -- lines 138-158: InvalidRequestError (both sub-branches perform the same
      -- tracker updates) and the final `except Exception` clause
      let st := st.increment_num_api_errors
      ⟨{ st.complete_task false with error := some (.apiException e) }, rq, res⟩

/-- Python `int(x)` truncates toward zero. -/
def pyInt (q : ℚ) : Int := if 0 ≤ q then ⌊q⌋ else ⌈q⌉

/-- One budget's refill (lines 274-282):
`min(capacity + int(ceiling * seconds_since_update / 60.0), ceiling)`. -/
def refill (ceiling cap elapsed : ℚ) : ℚ :=
  min (cap + (pyInt (ceiling * elapsed / 60) : ℚ)) ceiling

/-- The refill rule as the specification words it: "increase each budget by
`ceiling × elapsed/60`, capped at the ceiling" — with no integer truncation.
Stated from the spec, for comparison with `refill` (which is taken from the
source). -/
def refillSpelledBySpec (ceiling cap elapsed : ℚ) : ℚ :=
  min (cap + ceiling * elapsed / 60) ceiling

/-- The two capacity budgets of `process_api_requests` (lines 237-238). -/
structure CapacityState where
  available_request_capacity : ℚ
  available_token_capacity : ℚ
  deriving Repr, DecidableEq

/-- What the `if next_request:` block of one dispatch-loop tick (lines 285-310)
leaves behind. `submitted = some r` means `executor.submit(r.call_api, ...)` ran
with `r` the request after the `attempts_left -= 1` on line 296; `none` means no
submission happened (the candidate was dropped as a terminal failure). -/
structure AdmissionResult where
  capacity : CapacityState
  tracker : StatusTracker
  submitted : Option APIRequest
  deriving Repr, DecidableEq

/-- Lines 285-310: the admission test and its two branches.  When
`available_request_capacity >= 1 and available_token_capacity >= next_request_tokens`,
both budgets are decremented, `attempts_left` is decremented, and the request is
submitted; otherwise (the `else` on lines 305-310) the candidate is discarded,
`complete_task(success=False)` runs and
`error = MlflowException("Request size exceeded max tokens.")` is recorded. -/
def admissionStep (s : CapacityState) (st : StatusTracker) (req : APIRequest) :
    AdmissionResult :=
  if 1 ≤ s.available_request_capacity
      ∧ (req.token_consumption : ℚ) ≤ s.available_token_capacity then
    ⟨⟨s.available_request_capacity - 1,
      s.available_token_capacity - (req.token_consumption : ℚ)⟩,
      st,
      some { req with attempts_left := req.attempts_left - 1 }⟩
  else
    ⟨s, { st.complete_task false with error := some .requestSizeExceeded }, none⟩

/-- One capacity-relevant event of the dispatch loop, projected onto the two
budgets: a refill (lines 271-283, with the elapsed wall-clock seconds since the
last update) or the admission block run on a candidate of the given token cost
(lines 285-310; on the failing branch the budgets are unchanged). -/
inductive CapEvent where
  | refillTick (elapsed : ℚ)
  | candidate (cost : Int)
  deriving Repr, DecidableEq

/-- The side conditions the environment guarantees for an event: `time.time()`
is non-decreasing, and `num_tokens_consumed_from_request` returns a
non-negative count. -/
def CapEvent.wf : CapEvent → Prop
  | .refillTick elapsed => 0 ≤ elapsed
  | .candidate cost => 0 ≤ cost

instance : DecidablePred CapEvent.wf := fun ev => by
  cases ev <;> (unfold CapEvent.wf; infer_instance)

/-- Apply one capacity event (the budget components of lines 271-310). -/
def capStep (max_requests_per_minute max_tokens_per_minute : ℚ)
    (s : CapacityState) : CapEvent → CapacityState
  | .refillTick elapsed =>
    ⟨refill max_requests_per_minute s.available_request_capacity elapsed,
      refill max_tokens_per_minute s.available_token_capacity elapsed⟩
  | .candidate cost =>
    if 1 ≤ s.available_request_capacity
        ∧ (cost : ℚ) ≤ s.available_token_capacity then
      ⟨s.available_request_capacity - 1, s.available_token_capacity - (cost : ℚ)⟩
    else s

/-- The budgets after a sequence of events, starting from the initial state of
lines 237-238: both budgets start at their ceilings. -/
def capRun (max_requests_per_minute max_tokens_per_minute : ℚ)
    (evs : List CapEvent) : CapacityState :=
  evs.foldl (capStep max_requests_per_minute max_tokens_per_minute)
    ⟨max_requests_per_minute, max_tokens_per_minute⟩

/-- Both budgets are within `[0, ceiling]`. -/
def CapacityState.withinBounds
    (s : CapacityState) (max_requests_per_minute max_tokens_per_minute : ℚ) : Prop :=
  0 ≤ s.available_request_capacity
    ∧ s.available_request_capacity ≤ max_requests_per_minute
    ∧ 0 ≤ s.available_token_capacity
    ∧ s.available_token_capacity ≤ max_tokens_per_minute

/-- Lifecycle of a request that fails with a retryable transient error on every
attempt, assuming the admission test passes on each submission: each iteration
is one admission (which performs `attempts_left -= 1`, line 296) followed by the
retryable-error handler (lines 124-137), which re-enqueues iff
`attempts_left > 0` and otherwise marks the terminal failure.  Returns the total
number of submissions (API calls) made, or `none` if `fuel` iterations did not
reach the terminal state. -/
def transientSubmissions (fuel : Nat) (attempts_left : Int) : Option Nat :=
  match fuel with
  | 0 => none
  | fuel + 1 =>
    if attempts_left - 1 > 0 then
      (transientSubmissions fuel (attempts_left - 1)).map (· + 1)
    else some 1

/-- Line 346: `return [res for _, res in sorted(results)]`.  `sorted` on pairs
compares lexicographically; the first components (the request indices) are
distinct, so ordering by the first component alone produces the same list. -/
def assembleResults (results : List (Nat × α)) : List α :=
  (List.insertionSort (fun a b => a.1 ≤ b.1) results).map Prod.snd

/-- How a finished run ends (lines 333-346). -/
inductive RunOutcome (α : Type) where
  /-- `raise status_tracker.error` (line 336); carries the stored error -/
  | raisedOriginal (e : Option TrackedError)
  /-- `raise MlflowException(f"{num_tasks_failed} tasks failed. ...")` (lines 337-339) -/
  | aggregateError (num_failed : Int)
  /-- normal return of the reassembled results (line 346) -/
  | ok (output : List α)
  deriving Repr, DecidableEq

/-- Lines 333-346: the run's terminal behavior once the dispatch loop has
broken out.  `num_requests` is `len(requests)`. -/
def finishRun (st : StatusTracker) (throw_original_error : Bool)
    (num_requests : Nat) (results : List (Nat × α)) : RunOutcome α :=
  if st.num_tasks_failed > 0 then
    if throw_original_error ∧ num_requests = 1 then
      .raisedOriginal st.error
    else
      .aggregateError st.num_tasks_failed
  else
    .ok (assembleResults results)

/-- The state of the dispatch loop of `process_api_requests` (lines 228-331).
`supply` is what remains of `enumerate(requests)`, carrying each request's
index and its (pre-computed) `token_consumption`; `last_index` is
`len(requests) - 1` (so `-1` for an empty request list). -/
structure LoopState where
  supply : List (Nat × Int)
  last_index : Int
  requests_exhausted : Bool
  next_request : Option APIRequest
  capacity : CapacityState
  last_update_time : ℚ
  tracker : StatusTracker
  retry_queue : List APIRequest
  results : List (Nat × Unit)
  deriving Repr, DecidableEq

/-- The loop state on entry (lines 232-243) for the given request costs. -/
def initLoopState (max_requests_per_minute max_tokens_per_minute : ℚ)
    (costs : List Int) (start : ℚ) : LoopState where
  supply := (List.range costs.length).zip costs
  last_index := (costs.length : Int) - 1
  requests_exhausted := false
  next_request := none
  capacity := ⟨max_requests_per_minute, max_tokens_per_minute⟩
  last_update_time := start
  tracker := StatusTracker.init
  retry_queue := []
  results := []

/-- One iteration of the `while True:` body (lines 246-331), at wall-clock time
`t`.  The worker pool is modelled as completing each submitted call
synchronously and successfully (responses are `Unit`); for the control-flow
properties proved below about an empty supply no call is ever submitted, so
this choice is not exercised there. -/
def loopTick (max_requests_per_minute max_tokens_per_minute : ℚ)
    (max_attempts : Int) (t : ℚ) (s : LoopState) : LoopState :=
  -- lines 248-269: get next request (if one is not already waiting)
  let s :=
    if s.next_request.isNone then
      match s.retry_queue with
      | r :: rest => { s with next_request := some r, retry_queue := rest }
      | [] =>
        match s.supply with
        | (index, cost) :: rest =>
          { s with
            supply := rest
            next_request := some
              { index := index
                token_consumption := cost
                attempts_left := max_attempts
                start_time := t
                last_log_time := t }
            tracker := s.tracker.start_task
            requests_exhausted := decide ((index : Int) = s.last_index) }
        | [] => s
    else s
  -- lines 271-283: update available capacity
  let elapsed := t - s.last_update_time
  let s :=
    { s with
      capacity :=
        ⟨refill max_requests_per_minute s.capacity.available_request_capacity elapsed,
          refill max_tokens_per_minute s.capacity.available_token_capacity elapsed⟩
      last_update_time := t }
  -- lines 285-310: admission
  match s.next_request with
  | some req =>
    let adm := admissionStep s.capacity s.tracker req
    match adm.submitted with
    | some submitted =>
      -- the submitted call completes (synchronously in this model)
      let out := call_api submitted (.success ()) t adm.tracker s.retry_queue s.results
      { s with
        capacity := adm.capacity
        tracker := out.tracker
        retry_queue := out.retry_queue
        results := out.results
        next_request := none }
    | none =>
      { s with capacity := adm.capacity, tracker := adm.tracker, next_request := none }
  | none => s

/-- The dispatch loop run at the wall-clock times `ts` (one per iteration):
after each iteration the break test of lines 312-314
(`requests_exhausted and num_tasks_in_progress == 0`) is applied; `some results`
on break, `none` when every supplied iteration ran without breaking. -/
def loopRun (max_requests_per_minute max_tokens_per_minute : ℚ)
    (max_attempts : Int) (ts : List ℚ) (s : LoopState) :
    Option (List (Nat × Unit)) :=
  match ts with
  | [] => none
  | t :: rest =>
    let s := loopTick max_requests_per_minute max_tokens_per_minute max_attempts t s
    if s.requests_exhausted ∧ s.tracker.num_tasks_in_progress = 0 then
      some s.results
    else
      loopRun max_requests_per_minute max_tokens_per_minute max_attempts rest s

instance {α : Type} : IsTotal (Nat × α) (fun a b => a.1 ≤ b.1) :=
  ⟨fun a b => Nat.le_total a.1 b.1⟩

instance {α : Type} : IsTrans (Nat × α) (fun a b => a.1 ≤ b.1) :=
  ⟨fun _ _ _ h1 h2 => Nat.le_trans h1 h2⟩

instance {α : Type} : IsAntisymm (Nat × α) (fun a b => a.1 < b.1) :=
  ⟨fun _ _ h1 h2 => absurd (Nat.lt_trans h1 h2) (Nat.lt_irrefl _)⟩

/-! ## Theorems -/

lemma applyTrackerOp_balanced (st : StatusTracker) (op : TrackerOp)
    (h : st.balanced) : (applyTrackerOp st op).balanced := by
  cases op with
  | completeTask success =>
    cases success <;>
      simp_all [applyTrackerOp, StatusTracker.complete_task, StatusTracker.balanced] <;> omega
  | _ =>
    simp_all [applyTrackerOp, StatusTracker.start_task,
      StatusTracker.increment_num_rate_limit_errors,
      StatusTracker.increment_num_api_errors, StatusTracker.balanced] <;> omega

lemma foldl_trackerOps_balanced (ops : List TrackerOp) (st : StatusTracker)
    (h : st.balanced) : (ops.foldl applyTrackerOp st).balanced := by
  induction ops generalizing st with
  | nil => exact h
  | cons op rest ih => exact ih _ (applyTrackerOp_balanced st op h)

/-- C10: the status tracker maintains
`num_tasks_started = num_tasks_in_progress + num_tasks_succeeded + num_tasks_failed`
after every sequence of counter operations; `start_task` increments started and
in-progress together; `complete_task` decrements in-progress and increments
exactly one of succeeded/failed; hence when in-progress is zero, every started
task has been recorded as exactly one success or failure. -/
theorem statusTracker_counter_invariant (ops : List TrackerOp) :
    (runTrackerOps ops).balanced
    ∧ (∀ st : StatusTracker,
        st.start_task.num_tasks_started = st.num_tasks_started + 1
        ∧ st.start_task.num_tasks_in_progress = st.num_tasks_in_progress + 1)
    ∧ (∀ st : StatusTracker,
        (st.complete_task true).num_tasks_in_progress = st.num_tasks_in_progress - 1
        ∧ (st.complete_task true).num_tasks_succeeded = st.num_tasks_succeeded + 1
        ∧ (st.complete_task true).num_tasks_failed = st.num_tasks_failed
        ∧ (st.complete_task false).num_tasks_in_progress = st.num_tasks_in_progress - 1
        ∧ (st.complete_task false).num_tasks_succeeded = st.num_tasks_succeeded
        ∧ (st.complete_task false).num_tasks_failed = st.num_tasks_failed + 1)
    ∧ ((runTrackerOps ops).num_tasks_in_progress = 0 →
        (runTrackerOps ops).num_tasks_started
          = (runTrackerOps ops).num_tasks_succeeded + (runTrackerOps ops).num_tasks_failed) := by
  have hbal : (runTrackerOps ops).balanced :=
    foldl_trackerOps_balanced ops StatusTracker.init (by simp [StatusTracker.balanced, StatusTracker.init])
  refine ⟨hbal, ?_, ?_, ?_⟩
  · intro st; simp [StatusTracker.start_task]
  · intro st; simp [StatusTracker.complete_task]
  · intro hz
    have := hbal
    unfold StatusTracker.balanced at this
    omega

lemma pyInt_nonneg {q : ℚ} (h : 0 ≤ q) : (0 : Int) ≤ pyInt q := by
  unfold pyInt
  rw [if_pos h]
  exact Int.floor_nonneg.mpr h

lemma pyInt_cast_le {q : ℚ} (h : 0 ≤ q) : (pyInt q : ℚ) ≤ q := by
  unfold pyInt
  rw [if_pos h]
  exact Int.floor_le q

lemma refill_le_ceiling (ceiling cap elapsed : ℚ) :
    refill ceiling cap elapsed ≤ ceiling :=
  min_le_right _ _

lemma refill_nonneg {ceiling cap elapsed : ℚ} (hceil : 0 ≤ ceiling)
    (hcap : 0 ≤ cap) (he : 0 ≤ elapsed) : 0 ≤ refill ceiling cap elapsed := by
  refine le_min (add_nonneg hcap ?_) hceil
  exact_mod_cast pyInt_nonneg (by positivity)

lemma le_refill {ceiling cap elapsed : ℚ} (hcap : cap ≤ ceiling) (he : 0 ≤ elapsed)
    (hceil : 0 ≤ ceiling) : cap ≤ refill ceiling cap elapsed := by
  refine le_min ?_ hcap
  have : (0 : ℚ) ≤ (pyInt (ceiling * elapsed / 60) : ℚ) := by
    exact_mod_cast pyInt_nonneg (by positivity)
  linarith

lemma capStep_withinBounds {maxReq maxTok : ℚ} {s : CapacityState} {ev : CapEvent}
    (hreq : 0 ≤ maxReq) (htok : 0 ≤ maxTok) (hev : ev.wf)
    (hs : s.withinBounds maxReq maxTok) :
    (capStep maxReq maxTok s ev).withinBounds maxReq maxTok := by
  obtain ⟨h1, h2, h3, h4⟩ := hs
  cases ev with
  | refillTick elapsed =>
    have he : 0 ≤ elapsed := hev
    exact ⟨refill_nonneg hreq h1 he, refill_le_ceiling _ _ _,
      refill_nonneg htok h3 he, refill_le_ceiling _ _ _⟩
  | candidate cost =>
    have hc : (0 : ℚ) ≤ (cost : ℚ) := by exact_mod_cast hev
    simp only [capStep, CapacityState.withinBounds]
    by_cases hguard : 1 ≤ s.available_request_capacity
        ∧ (cost : ℚ) ≤ s.available_token_capacity
    · rw [if_pos hguard]
      obtain ⟨hg1, hg2⟩ := hguard
      dsimp only
      exact ⟨by linarith, by linarith, by linarith, by linarith⟩
    · rw [if_neg hguard]
      exact ⟨h1, h2, h3, h4⟩

lemma capFold_withinBounds {maxReq maxTok : ℚ} (evs : List CapEvent)
    (s : CapacityState) (hreq : 0 ≤ maxReq) (htok : 0 ≤ maxTok)
    (hwf : ∀ ev ∈ evs, ev.wf) (hs : s.withinBounds maxReq maxTok) :
    (evs.foldl (capStep maxReq maxTok) s).withinBounds maxReq maxTok := by
  induction evs generalizing s with
  | nil => exact hs
  | cons ev rest ih =>
    exact ih _ (fun e he => hwf e (List.mem_cons_of_mem _ he))
      (capStep_withinBounds hreq htok (hwf ev (List.mem_cons_self _ _)) hs)

/-- C9: starting from full budgets, after any sequence of refill ticks (with
non-negative elapsed time) and admission attempts (with non-negative cost),
both capacity budgets stay within `[0, ceiling]`: refill is capped at the
ceiling and the budgets are decremented only when the admission test confirms
they cover the candidate's cost.  Every observation point of a run is the state
after some such event sequence. -/
theorem capacity_never_negative_never_exceeds_ceiling
    (maxReq maxTok : ℚ) (evs : List CapEvent)
    (hreq : 0 ≤ maxReq) (htok : 0 ≤ maxTok) (hwf : ∀ ev ∈ evs, ev.wf) :
    (capRun maxReq maxTok evs).withinBounds maxReq maxTok :=
  capFold_withinBounds evs _ hreq htok hwf
    ⟨hreq, le_refl _, htok, le_refl _⟩

/-- Witness for C9 at a concrete run: ceilings 3500 requests/min and 90000
tokens/min, a one-second refill, an admission of cost 100, a half-second
refill. -/
theorem capacity_never_negative_never_exceeds_ceiling_witness :
    (capRun 3500 90000
      [.refillTick 1, .candidate 100, .refillTick (1/2)]).withinBounds 3500 90000 :=
  capacity_never_negative_never_exceeds_ceiling 3500 90000
    [.refillTick 1, .candidate 100, .refillTick (1/2)]
    (by norm_num) (by norm_num)
    (by intro ev hev; fin_cases hev <;> norm_num [CapEvent.wf])

/-- C2 counterexample: with a ceiling of 60 tokens/minute (1 token/second) and
an empty budget, a half-second tick refills nothing — `int()` truncates the
fractional refill to 0 while `last_update_time` still advances — so two
half-second ticks spanning one second refill 0 in total, while a single
one-second tick refills 1 and the spec's untruncated rule refills 1/2 per
half-second tick.  Refill IS lost between short ticks. -/
theorem refill_lost_between_short_ticks :
    refill 60 0 (1/2) = 0
    ∧ refillSpelledBySpec 60 0 (1/2) = 1/2
    ∧ refill 60 (refill 60 0 (1/2)) (1/2) = 0
    ∧ refill 60 0 1 = 1
    ∧ refill 60 0 (1/2) ≠ refillSpelledBySpec 60 0 (1/2) := by
  refine ⟨?_, ?_, ?_, ?_, ?_⟩ <;>
    norm_num [refill, refillSpelledBySpec, pyInt, min_def]

/-- C2 amended: each budget is increased by the *integer-truncated*
`int(ceiling × elapsed/60)`, capped at the ceiling, and `last_update_time`
advances unconditionally, so the fractional part of each tick's refill is
discarded: over any sequence of ticks with non-negative elapsed times the
budget never decreases and never exceeds the ceiling, and the total refill is
at most `ceiling × T/60` for `T` the total elapsed time — with equality not
guaranteed (see the counterexample). -/
theorem refill_total_at_most_linear (ceiling cap : ℚ) (es : List ℚ)
    (hceil : 0 ≤ ceiling) (hcap : cap ≤ ceiling) (hes : ∀ e ∈ es, 0 ≤ e) :
    cap ≤ es.foldl (refill ceiling) cap
    ∧ es.foldl (refill ceiling) cap ≤ ceiling
    ∧ es.foldl (refill ceiling) cap ≤ cap + ceiling * es.sum / 60 := by
  induction es generalizing cap with
  | nil =>
    refine ⟨le_refl _, hcap, ?_⟩
    simp
  | cons e rest ih =>
    have he : 0 ≤ e := hes e (List.mem_cons_self _ _)
    have hrest : ∀ x ∈ rest, 0 ≤ x := fun x hx => hes x (List.mem_cons_of_mem _ hx)
    have hstep_le : refill ceiling cap e ≤ ceiling := refill_le_ceiling _ _ _
    have hstep_ge : cap ≤ refill ceiling cap e := le_refill hcap he hceil
    obtain ⟨ih1, ih2, ih3⟩ := ih (refill ceiling cap e) hstep_le hrest
    have hone : refill ceiling cap e ≤ cap + ceiling * e / 60 := by
      have := pyInt_cast_le (q := ceiling * e / 60) (by positivity)
      unfold refill
      have : (pyInt (ceiling * e / 60) : ℚ) ≤ ceiling * e / 60 := this
      calc min (cap + (pyInt (ceiling * e / 60) : ℚ)) ceiling
          ≤ cap + (pyInt (ceiling * e / 60) : ℚ) := min_le_left _ _
        _ ≤ cap + ceiling * e / 60 := by linarith
    refine ⟨le_trans hstep_ge ih1, ih2, ?_⟩
    calc (e :: rest).foldl (refill ceiling) cap
        = rest.foldl (refill ceiling) (refill ceiling cap e) := by simp
      _ ≤ refill ceiling cap e + ceiling * rest.sum / 60 := ih3
      _ ≤ cap + ceiling * e / 60 + ceiling * rest.sum / 60 := by linarith
      _ = cap + ceiling * (e :: rest).sum / 60 := by
          simp [List.sum_cons]
          ring

/-- Witness for the amended C2 at ceiling 60, initial budget 0 and two
half-second ticks: the total refill stays within `[0, 60]` and is at most
`60 × 1/60 = 1` (it is in fact 0). -/
theorem refill_total_at_most_linear_witness :
    (0 : ℚ) ≤ [(1/2 : ℚ), 1/2].foldl (refill 60) 0
    ∧ [(1/2 : ℚ), 1/2].foldl (refill 60) 0 ≤ 60
    ∧ [(1/2 : ℚ), 1/2].foldl (refill 60) 0 ≤ 0 + 60 * ([(1/2 : ℚ), 1/2].sum) / 60 :=
  refill_total_at_most_linear 60 0 [1/2, 1/2] (by norm_num) (by norm_num)
    (by intro e he; fin_cases he <;> norm_num)

/-- C1: the admission block (lines 285-310) does not distinguish "cost exceeds
the ceiling" from "cost exceeds the currently available capacity".  At the
concrete input — available capacities (5 requests, 10 tokens), candidate cost
50, token ceiling 100 (so the cost is admissible in principle, `50 ≤ 100`) —
the candidate is not submitted, not held for a later tick, and is recorded as a
terminal failure with the error "Request size exceeded max tokens", even though
only the *current* capacity was insufficient. -/
theorem depleted_capacity_drops_admissible_candidate :
    (50 : ℚ) ≤ 100
    ∧ (admissionStep ⟨5, 10⟩ .init ⟨0, 50, 5, 0, 0⟩).submitted = none
    ∧ (admissionStep ⟨5, 10⟩ .init ⟨0, 50, 5, 0, 0⟩).tracker.num_tasks_failed = 1
    ∧ (admissionStep ⟨5, 10⟩ .init ⟨0, 50, 5, 0, 0⟩).tracker.error
        = some .requestSizeExceeded := by
  refine ⟨by norm_num, ?_, ?_, ?_⟩ <;>
    simp [admissionStep, StatusTracker.complete_task, StatusTracker.init]
      <;> norm_num

/-- C3 counterexample: a request that failed with a rate-limit (quota) error is
re-enqueued unchanged, with `attempts_left = 4`; when it is re-admitted from
the retry queue, line 296 (`next_request.attempts_left -= 1`) runs for it just
as for a fresh submission, so it is submitted with `attempts_left = 3`, not 4:
the attempts-remaining counter IS decremented at a quota-retry submission. -/
theorem quota_retry_submission_decrements_attempts :
    (call_api ⟨0, 10, 4, 0, 0⟩ .rateLimitError 10 .init []
        ([] : List (Nat × Unit))).retry_queue = [⟨0, 10, 4, 0, 0⟩]
    ∧ ((admissionStep ⟨3500, 90000⟩ .init ⟨0, 10, 4, 0, 0⟩).submitted.map
        APIRequest.attempts_left) = some 3
    ∧ (3 : Int) ≠ 4 := by
  refine ⟨?_, ?_, by norm_num⟩
  · simp [call_api, StatusTracker.increment_num_rate_limit_errors, StatusTracker.init]
    norm_num
  · simp [admissionStep]
    norm_num

/-- C3 amended: `attempts_left` is decremented at *every* submission — fresh or
re-admitted from the retry queue, including re-admissions after quota failures
(the admission block cannot tell where the candidate came from) — while the
quota-failure classification itself re-enqueues the request with
`attempts_left` unchanged. -/
theorem every_submission_decrements_attempts
    (s : CapacityState) (st : StatusTracker) (req : APIRequest) :
    (∀ r, (admissionStep s st req).submitted = some r →
      r.attempts_left = req.attempts_left - 1)
    ∧ (∀ (ct : ℚ) (rq : List APIRequest) (res : List (Nat × Unit)),
        ct - req.start_time < 600 →
          (call_api req .rateLimitError ct st rq res).retry_queue.map
              APIRequest.attempts_left
            = rq.map APIRequest.attempts_left ++ [req.attempts_left]) := by
  constructor
  · intro r h
    unfold admissionStep at h
    split at h
    · simp at h
      rw [← h]
    · simp at h
  · intro ct rq res hlt
    simp only [call_api, if_pos hlt]
    split <;> simp

/-- C4: a request that fails with a retryable transient error on every attempt
makes exactly `max_attempts` API calls before being marked a terminal failure
(the claim's "retried exactly k times" counts attempts: the initial submission
plus `k − 1` re-submissions, as its own `max_attempts = 1` clause shows): with
`max_attempts = k ≥ 1` the terminal failure comes after exactly `k`
submissions, and with `max_attempts = 1` there is exactly one submission and no
retry. -/
theorem transient_failures_consume_exactly_max_attempts (k : Nat) (hk : 1 ≤ k) :
    transientSubmissions k (k : Int) = some k
    ∧ transientSubmissions 1 (1 : Int) = some 1 := by
  have main : ∀ m : Nat, 1 ≤ m → transientSubmissions m (m : Int) = some m := by
    intro m hm
    induction m with
    | zero => omega
    | succ n ih =>
      by_cases hn : 1 ≤ n
      · have hcast : ((n + 1 : Nat) : Int) - 1 = (n : Int) := by push_cast; ring
        have hpos : (n : Int) > 0 := by exact_mod_cast hn
        show (if ((n + 1 : Nat) : Int) - 1 > 0 then
            (transientSubmissions n (((n + 1 : Nat) : Int) - 1)).map (· + 1)
          else some 1) = some (n + 1)
        rw [hcast, if_pos hpos, ih hn]
        rfl
      · have hn0 : n = 0 := by omega
        subst hn0
        simp [transientSubmissions]
  exact ⟨main k hk, main 1 (le_refl 1)⟩

/-- Witness for C4 at `max_attempts = 5` (5 submissions) and the
`max_attempts = 1` special case (a single submission, never retried). -/
theorem transient_failures_consume_exactly_max_attempts_witness :
    transientSubmissions 5 (5 : Int) = some 5
    ∧ transientSubmissions 1 (1 : Int) = some 1 :=
  transient_failures_consume_exactly_max_attempts 5 (by norm_num)

lemma loopRun_stuck_of_inactive (maxReq maxTok : ℚ) (maxAtt : Int)
    (ts : List ℚ) (s : LoopState)
    (h1 : s.supply = []) (h2 : s.retry_queue = []) (h3 : s.next_request = none)
    (h4 : s.requests_exhausted = false) :
    loopRun maxReq maxTok maxAtt ts s = none := by
  induction ts generalizing s with
  | nil => rfl
  | cons t rest ih =>
    have htick : loopTick maxReq maxTok maxAtt t s =
        { s with
          capacity :=
            ⟨refill maxReq s.capacity.available_request_capacity (t - s.last_update_time),
              refill maxTok s.capacity.available_token_capacity (t - s.last_update_time)⟩
          last_update_time := t } := by
      simp [loopTick, h1, h2, h3]
    simp only [loopRun, htick, h4]
    simp only [Bool.false_eq_true, false_and, if_false]
    exact ih _ h1 h2 h3 rfl

/-- C5 (refuted by the code on the empty supply): with an empty request list,
`requests_exhausted` is initialized to `False` (line 243) and is only ever set
when a fresh request is pulled from the supply (line 269), which never happens;
the break test `requests_exhausted and num_tasks_in_progress == 0`
(lines 312-314) therefore never fires, and the dispatch loop never terminates —
for any number of iterations at any tick times — whereas the claim says that
processing an empty list of requests terminates and returns an empty output. -/
theorem empty_supply_loop_never_breaks (maxReq maxTok : ℚ) (maxAtt : Int)
    (start : ℚ) (ts : List ℚ) :
    loopRun maxReq maxTok maxAtt ts (initLoopState maxReq maxTok [] start) = none := by
  apply loopRun_stuck_of_inactive <;> rfl

/-- C6: when every request succeeded, the shared results list is a permutation
— in whatever order the workers completed — of the indexed outcomes
`[(0, f 0), …, (n-1, f (n-1))]`; the final
`[res for _, res in sorted(results)]` then returns exactly
`[f 0, …, f (n-1)]`: one output per input, in input order. -/
theorem output_in_input_order {α : Type} (n : Nat) (f : Nat → α)
    (results : List (Nat × α))
    (hperm : results.Perm ((List.range n).map fun i => (i, f i))) :
    assembleResults results = (List.range n).map f := by
  have hsorted :
      (List.insertionSort (fun a b : Nat × α => a.1 ≤ b.1) results).Sorted
        (fun a b => a.1 ≤ b.1) :=
    List.sorted_insertionSort _ results
  have hp :
      (List.insertionSort (fun a b : Nat × α => a.1 ≤ b.1) results).Perm
        ((List.range n).map fun i => (i, f i)) :=
    (List.perm_insertionSort _ results).trans hperm
  have hkeysperm :
      ((List.insertionSort (fun a b : Nat × α => a.1 ≤ b.1) results).map Prod.fst).Perm
        (((List.range n).map fun i => (i, f i)).map Prod.fst) := hp.map Prod.fst
  have hcanonkeys :
      (((List.range n).map fun i => (i, f i)).map Prod.fst) = List.range n := by
    simp [List.map_map, Function.comp_def]
  have hkeysnodup :
      ((List.insertionSort (fun a b : Nat × α => a.1 ≤ b.1) results).map Prod.fst).Nodup := by
    rw [hkeysperm.nodup_iff, hcanonkeys]
    exact List.nodup_range n
  have hne :
      (List.insertionSort (fun a b : Nat × α => a.1 ≤ b.1) results).Pairwise
        (fun a b => a.1 ≠ b.1) :=
    List.pairwise_map.mp hkeysnodup
  have hlt :
      (List.insertionSort (fun a b : Nat × α => a.1 ≤ b.1) results).Pairwise
        (fun a b : Nat × α => a.1 < b.1) :=
    List.Pairwise.imp₂ (fun _ _ hle hne => lt_of_le_of_ne hle hne) hsorted hne
  have hcanonlt :
      (((List.range n).map fun i => (i, f i)) : List (Nat × α)).Pairwise
        (fun a b : Nat × α => a.1 < b.1) := by
    refine List.pairwise_map.mpr ?_
    simpa using List.pairwise_lt_range n
  have heq := List.eq_of_perm_of_sorted hp hlt hcanonlt
  unfold assembleResults
  rw [heq]
  simp [List.map_map, Function.comp_def]

/-- Witness for C6 at `n = 3`, outcomes `f i = 10·i`, with the workers having
completed in the order 2, 0, 1. -/
theorem output_in_input_order_witness :
    assembleResults [(2, 20), (0, 0), (1, 10)] = (List.range 3).map (fun i => 10 * i) :=
  output_in_input_order 3 (fun i => 10 * i) [(2, 20), (0, 0), (1, 10)] (by decide)

/-- C7: on a quota/rate-limit failure, the request is re-enqueued to the retry
queue if and only if less than 600 seconds have elapsed since the request's
`start_time` (its creation at first submission); otherwise the retry queue is
untouched and the request is marked a terminal failure (`complete_task(False)`,
with the 10-minute error recorded). -/
theorem rate_limit_requeue_iff_within_ten_minutes {α : Type} (req : APIRequest)
    (ct : ℚ) (st : StatusTracker) (rq : List APIRequest) (res : List (Nat × α)) :
    ((call_api req .rateLimitError ct st rq res).retry_queue.length = rq.length + 1
      ↔ ct - req.start_time < 600)
    ∧ ((call_api req .rateLimitError ct st rq res).retry_queue = rq
        ∧ (call_api req .rateLimitError ct st rq res).tracker.num_tasks_failed
            = st.num_tasks_failed + 1
        ∧ (call_api req .rateLimitError ct st rq res).tracker.num_tasks_in_progress
            = st.num_tasks_in_progress - 1
        ∧ (call_api req .rateLimitError ct st rq res).tracker.error = some .retryTimeout
      ↔ ¬(ct - req.start_time < 600)) := by
  by_cases h : ct - req.start_time < 600
  · constructor
    · simp only [call_api, if_pos h]
      constructor
      · intro _; exact h
      · intro _
        split <;> simp
    · simp only [call_api, if_pos h]
      constructor
      · rintro ⟨hq, -⟩
        exfalso
        split at hq <;> simp at hq
      · intro hcontra; exact absurd h hcontra
  · constructor
    · simp only [call_api, if_neg h]
      constructor
      · intro hlen; simp at hlen
      · intro hcontra; exact absurd hcontra h
    · simp only [call_api, if_neg h]
      simp [StatusTracker.complete_task, StatusTracker.increment_num_rate_limit_errors, h]

/-- C8: once the loop has finished, the run raises the aggregate
`"... tasks failed"` error if and only if at least one terminal failure was
recorded, except that with `throw_original_error` set and exactly one request
submitted the stored original error is re-raised instead; with no terminal
failure the run returns the reassembled results normally. -/
theorem run_raises_iff_any_terminal_failure {α : Type} (st : StatusTracker)
    (throw_original_error : Bool) (num_requests : Nat) (results : List (Nat × α)) :
    (finishRun st throw_original_error num_requests results
        = RunOutcome.ok (assembleResults results)
      ↔ ¬(0 < st.num_tasks_failed))
    ∧ (finishRun st throw_original_error num_requests results
        = RunOutcome.raisedOriginal st.error
      ↔ 0 < st.num_tasks_failed ∧ throw_original_error = true ∧ num_requests = 1)
    ∧ (finishRun st throw_original_error num_requests results
        = RunOutcome.aggregateError st.num_tasks_failed
      ↔ 0 < st.num_tasks_failed ∧ ¬(throw_original_error = true ∧ num_requests = 1)) := by
  unfold finishRun
  by_cases hf : st.num_tasks_failed > 0
  · by_cases hb : throw_original_error = true ∧ num_requests = 1
    · rw [if_pos hf, if_pos hb]
      refine ⟨?_, ?_, ?_⟩ <;> simp [hf, hb]
    · rw [if_pos hf, if_neg hb]
      refine ⟨?_, ?_, ?_⟩ <;> simp [hf, hb]
  · rw [if_neg hf]
    refine ⟨?_, ?_, ?_⟩ <;> simp [hf]

end APIParallel
